import Mathlib

/-!
Shallow embedding of the core of `express-user-data-api`:
the LRU+TTL cache (`src/services/cache.ts`), the dual-window rate limiter
(`src/services/rateLimiter.ts`) and the job queue (`src/services/queue.ts`).

Timestamps (`Date.now()` values) are modelled as `Nat` milliseconds and are
threaded explicitly (`now` parameters).  JavaScript `Map`s are modelled as
insertion-ordered association lists (`Map.set` updates in place or appends,
`Map.delete` removes the entry, iteration follows insertion order), which is
exactly the observable behaviour of a JavaScript `Map`.  Logging calls and the
wall-clock latency bookkeeping (`recordResponseTime` / `averageResponseTime`),
which measure real elapsed time and influence no control decision, are omitted.
-/

set_option maxRecDepth 10000

namespace UserDataApi

/-- `Map.get`: first value bound to `key`, if any (JS `Map` keys are unique). -/
def mapGet {κ α : Type} [DecidableEq κ] (m : List (κ × α)) (key : κ) : Option α :=
  match m with
  | [] => none
  | kv :: rest => if kv.1 = key then some kv.2 else mapGet rest key

/-- `Map.set`: update the binding in place if `key` is present, else append. -/
def mapSet {κ α : Type} [DecidableEq κ] (m : List (κ × α)) (key : κ) (v : α) :
    List (κ × α) :=
  match m with
  | [] => [(key, v)]
  | kv :: rest => if kv.1 = key then (key, v) :: rest else kv :: mapSet rest key v

/-- `Map.delete`: remove the binding for `key` (keys are unique, so removing
every matching pair coincides with removing the one binding). -/
def mapDelete {κ α : Type} [DecidableEq κ] (m : List (κ × α)) (key : κ) :
    List (κ × α) :=
  m.filter (fun kv => kv.1 ≠ key)

/-! ### Cache store (`src/services/cache.ts`) -/

/-- `CacheEntry` from `src/types/index.ts`: `value`, `timestamp`, `ttl`.
The single `timestamp` field is both the TTL clock and the LRU key; it is set
at insertion and refreshed by every successful `getFromCache`. -/
structure CacheEntry (V : Type) where
  value : V
  timestamp : Nat
  ttl : Nat
deriving DecidableEq

/-- `CACHE_TTL = 60 * 1000` (60 seconds). -/
def CACHE_TTL : Nat := 60 * 1000

/-- `MAX_CACHE_SIZE = 100`. -/
def MAX_CACHE_SIZE : Nat := 100

/-- Cache module state: the `cache` map plus the hit/miss counters of `stats`
(`size` is derived as `cache.length`; the latency stats are not modelled). -/
structure CacheState (V : Type) where
  cache : List (String × CacheEntry V)
  hits : Nat
  misses : Nat
deriving DecidableEq

def emptyCacheState {V : Type} : CacheState V := ⟨[], 0, 0⟩

/-- `isExpired`: `Date.now() - entry.timestamp > entry.ttl`
(with JS semantics a future timestamp gives a negative difference, which is
not `> ttl`; `Nat` truncated subtraction gives `0`, likewise not `> ttl`). -/
def isExpired {V : Type} (now : Nat) (entry : CacheEntry V) : Bool :=
  entry.ttl < now - entry.timestamp

/-- `removeExpiredEntries`: delete every entry with `now - timestamp > ttl`
(the loop restates `isExpired`'s condition inline). -/
def removeExpiredEntries {V : Type} (now : Nat)
    (cache : List (String × CacheEntry V)) : List (String × CacheEntry V) :=
  cache.filter (fun kv => !(isExpired now kv.2))

/-- One iteration of the scan inside `evictLRU`: keep the first entry whose
timestamp is strictly below the running minimum `(oldestKey, oldestTime)`. -/
def lruStep {V : Type} (acc : String × Nat) (kv : String × CacheEntry V) :
    String × Nat :=
  if kv.2.timestamp < acc.2 then (kv.1, kv.2.timestamp) else acc

/-- The scan inside `evictLRU`, starting from `oldestKey = ""` and
`oldestTime = Date.now()`. -/
def findOldest {V : Type} (now : Nat) (cache : List (String × CacheEntry V)) :
    String × Nat :=
  cache.foldl lruStep ("", now)

/-- `evictLRU`: when `cache.size >= maxSize`, scan for the entry with the
oldest timestamp (strictly older than `Date.now()`, because the running
minimum starts at `Date.now()`) and delete it; `if (oldestKey)` is JS
truthiness, so nothing is deleted when `oldestKey` stayed `""`.
The source fixes `maxSize` to the module constant `MAX_CACHE_SIZE`; it is a
parameter here. -/
def evictLRU {V : Type} (maxSize now : Nat)
    (cache : List (String × CacheEntry V)) : List (String × CacheEntry V) :=
  if maxSize ≤ cache.length then
    if (findOldest now cache).1 ≠ "" then mapDelete cache (findOldest now cache).1
    else cache
  else cache

/-- `getFromCache`: miss on absence; on an expired entry delete it and miss;
otherwise refresh `entry.timestamp` to `Date.now()`, re-`set` it and hit. -/
def getFromCache {V : Type} (now : Nat) (s : CacheState V) (key : String) :
    CacheState V × Option V :=
  match mapGet s.cache key with
  | none => ({ s with misses := s.misses + 1 }, none)
  | some entry =>
    if isExpired now entry then
      ({ s with cache := mapDelete s.cache key, misses := s.misses + 1 }, none)
    else
      ({ s with cache := mapSet s.cache key { entry with timestamp := now },
                hits := s.hits + 1 },
       some entry.value)

/-- `setCache`: sweep expired entries, run `evictLRU`, then `set` the new
entry with `timestamp = Date.now()`.  The source defaults `ttl` to
`CACHE_TTL`; callers here pass it explicitly. -/
def setCache {V : Type} (maxSize now : Nat) (s : CacheState V) (key : String)
    (value : V) (ttl : Nat) : CacheState V :=
  { s with cache := mapSet (evictLRU maxSize now (removeExpiredEntries now s.cache))
                      key ⟨value, now, ttl⟩ }

/-- `deleteFromCache`: remove the key and report whether it was present. -/
def deleteFromCache {V : Type} (s : CacheState V) (key : String) :
    CacheState V × Bool :=
  ({ s with cache := mapDelete s.cache key }, (mapGet s.cache key).isSome)

/-- `clearCache`: drop all entries and reset the counters. -/
def clearCache {V : Type} (_s : CacheState V) : CacheState V := ⟨[], 0, 0⟩

/-- `setCache` repeated for keys `"0" … "(n-1)"`, all in the same millisecond
`now`, with the source's constants (`MAX_CACHE_SIZE`, `CACHE_TTL`). -/
def fillSameTick (n now : Nat) : CacheState Nat :=
  (List.range n).foldl
    (fun s i => setCache MAX_CACHE_SIZE now s (toString i) i CACHE_TTL)
    emptyCacheState

/-- The `evictLRU` scan yields either its initial accumulator or the key and
timestamp of a list member; its timestamp component is a lower bound of the
initial `oldestTime` and of every member's timestamp. -/
theorem lruFold_spec {V : Type} (l : List (String × CacheEntry V)) :
    ∀ acc : String × Nat,
      (l.foldl lruStep acc = acc
        ∨ ∃ kv ∈ l, l.foldl lruStep acc = (kv.1, kv.2.timestamp))
      ∧ (l.foldl lruStep acc).2 ≤ acc.2
      ∧ (∀ kv ∈ l, (l.foldl lruStep acc).2 ≤ kv.2.timestamp) := by
  induction l with
  | nil => intro acc; simp
  | cons hd tl ih =>
    intro acc
    obtain ⟨ih1, ih2, ih3⟩ := ih (lruStep acc hd)
    simp only [List.foldl_cons]
    refine ⟨?_, ?_, ?_⟩
    · rcases ih1 with h | ⟨kv, hkv, h⟩
      · rw [h]
        by_cases hc : hd.2.timestamp < acc.2
        · right
          exact ⟨hd, List.mem_cons_self hd tl, by simp only [lruStep, if_pos hc]⟩
        · left
          simp only [lruStep, if_neg hc]
      · right
        exact ⟨kv, List.mem_cons_of_mem _ hkv, h⟩
    · refine le_trans ih2 ?_
      by_cases hc : hd.2.timestamp < acc.2
      · simp only [lruStep, if_pos hc]
        exact le_of_lt hc
      · simp only [lruStep, if_neg hc]
        exact le_refl _
    · intro kv hkv
      rcases List.mem_cons.mp hkv with h | h
      · subst h
        refine le_trans ih2 ?_
        by_cases hc : kv.2.timestamp < acc.2
        · simp only [lruStep, if_pos hc]
          exact le_refl _
        · simp only [lruStep, if_neg hc]
          exact le_of_not_lt hc
      · exact ih3 kv h

/-- Claim C4 (counterexample): `getFromCache` refreshes `entry.timestamp`, so
the TTL clock restarts on every read.  An entry inserted at `t = 0` with
`ttl = 100` and read (hit) at `t = 60` is still returned at `t = 110`, even
though `ttl` has elapsed since insertion; moreover even without an
intervening read, the entry is still returned at exactly
`insertedAt + ttl` (visibility is `now - timestamp ≤ ttl`, not `< ttl`). -/
theorem cache_ttl_since_insertion_counterexample_c4 :
    (getFromCache 110
        (getFromCache 60 (setCache MAX_CACHE_SIZE 0 emptyCacheState "k" (42 : Nat) 100) "k").1
        "k").2 = some 42
    ∧ 100 ≤ 110 - 0
    ∧ (getFromCache 100 (setCache MAX_CACHE_SIZE 0 emptyCacheState "k" (42 : Nat) 100) "k").2
        = some 42
    ∧ ¬ (100 - 0 < 100) := by
  decide

/-- Claim C4 (amended): a cached entry is visible exactly while
`now - entry.timestamp ≤ entry.ttl`, where `timestamp` is refreshed by every
successful read (so without intervening reads it is the insertion time); any
`getFromCache` outside that window, or on an absent key, returns `none` and
increments the miss counter. -/
theorem cache_visibility_last_access_c4 {V : Type} (now : Nat)
    (s : CacheState V) (key : String) :
    ((getFromCache now s key).2 =
      match mapGet s.cache key with
      | none => none
      | some e => if now - e.timestamp ≤ e.ttl then some e.value else none)
    ∧ (getFromCache now s key).1.misses =
        s.misses + (if ((getFromCache now s key).2).isNone then 1 else 0) := by
  cases hm : mapGet s.cache key with
  | none => simp [getFromCache, hm]
  | some e =>
    by_cases h : e.ttl < now - e.timestamp
    · have hx : isExpired now e = true := by
        simp only [isExpired, decide_eq_true_eq]
        exact h
      simp [getFromCache, hm, hx, Nat.not_le.mpr h]
    · have hx : isExpired now e = false := by
        simp only [isExpired, decide_eq_false_iff_not]
        exact h
      simp [getFromCache, hm, hx, Nat.not_lt.mp h]

/-- Claim C5 (counterexample): with the cache at capacity
(`MAX_CACHE_SIZE = 100` entries, all live) and every entry's timestamp equal
to the current millisecond, `setCache` evicts nothing at all — the insertion
leaves all 100 entries in place and grows the cache to 101, instead of
evicting the least-recently-used entry. -/
theorem cache_lru_no_eviction_counterexample_c5 :
    (fillSameTick 100 0).cache.length = MAX_CACHE_SIZE
    ∧ (setCache MAX_CACHE_SIZE 0 (fillSameTick 100 0) "new" (42 : Nat) CACHE_TTL).cache.length
        = 101 := by
  decide

/-- Claim C5 (amended): when `setCache` runs against a cache at capacity
(after the sweep of expired entries) whose keys are nonempty strings, and
some surviving entry's timestamp is strictly older than the insertion time,
then all expired entries have been removed first (never evicting a live
entry while an expired one remains) and the entry deleted by `evictLRU` is
one with the minimal (least-recent) timestamp; if instead every surviving
entry's timestamp equals the current millisecond, nothing is evicted. -/
theorem cache_lru_eviction_policy_c5 {V : Type} (maxSize now : Nat)
    (s : CacheState V) (key : String) (value : V) (ttl : Nat)
    (hkeys : ∀ kv ∈ s.cache, kv.1 ≠ "")
    (hcap : maxSize ≤ (removeExpiredEntries now s.cache).length)
    (hold : ∃ kv ∈ removeExpiredEntries now s.cache, kv.2.timestamp < now) :
    (∀ kv ∈ removeExpiredEntries now s.cache, isExpired now kv.2 = false)
    ∧ ∃ kv ∈ removeExpiredEntries now s.cache,
        (∀ kv' ∈ removeExpiredEntries now s.cache,
            kv.2.timestamp ≤ kv'.2.timestamp)
        ∧ setCache maxSize now s key value ttl =
            { s with cache :=
                (mapSet (mapDelete (removeExpiredEntries now s.cache) kv.1)
                  key ⟨value, now, ttl⟩) } := by
  constructor
  · intro kv hkv
    have h := List.of_mem_filter hkv
    simpa using h
  · obtain ⟨mem_or, -, hmin⟩ :=
      lruFold_spec (removeExpiredEntries now s.cache) ("", now)
    obtain ⟨kv0, hkv0, hlt⟩ := hold
    have hlt' :
        ((removeExpiredEntries now s.cache).foldl lruStep ("", now)).2 < now :=
      lt_of_le_of_lt (hmin kv0 hkv0) hlt
    rcases mem_or with heq | ⟨kv, hkv, heq⟩
    · exact absurd (by rw [heq] at hlt'; exact hlt') (lt_irrefl now)
    · have heq' : findOldest now (removeExpiredEntries now s.cache)
          = (kv.1, kv.2.timestamp) := heq
      have hne : kv.1 ≠ "" := hkeys kv (List.mem_of_mem_filter hkv)
      refine ⟨kv, hkv, ?_, ?_⟩
      · intro kv' hkv'
        have h := hmin kv' hkv'
        rw [heq] at h
        exact h
      · have hev : evictLRU maxSize now (removeExpiredEntries now s.cache)
            = mapDelete (removeExpiredEntries now s.cache) kv.1 := by
          show (if maxSize ≤ (removeExpiredEntries now s.cache).length then
                  if (findOldest now (removeExpiredEntries now s.cache)).1 ≠ "" then
                    mapDelete (removeExpiredEntries now s.cache)
                      (findOldest now (removeExpiredEntries now s.cache)).1
                  else removeExpiredEntries now s.cache
                else removeExpiredEntries now s.cache) = _
          rw [heq']
          simp [hcap, hne]
        show { s with cache :=
                (mapSet (evictLRU maxSize now (removeExpiredEntries now s.cache))
                  key ⟨value, now, ttl⟩) } = _
        rw [hev]

/-- Witness for the amended claim C5 at a concrete input: one live entry
`("a", value 7, timestamp 0, ttl 60000)` in a cache of capacity 1, insertion
of `"b"` at `now = 5`: the entry `"a"` (the least recently used) is evicted. -/
theorem cache_lru_eviction_policy_c5_witness :
    (∀ kv ∈ (⟨[("a", ⟨7, 0, 60000⟩)], 0, 0⟩ : CacheState Nat).cache, kv.1 ≠ "")
    ∧ 1 ≤ (removeExpiredEntries 5 (⟨[("a", ⟨7, 0, 60000⟩)], 0, 0⟩ : CacheState Nat).cache).length
    ∧ (∃ kv ∈ removeExpiredEntries 5 (⟨[("a", ⟨7, 0, 60000⟩)], 0, 0⟩ : CacheState Nat).cache,
        kv.2.timestamp < 5)
    ∧ ((∀ kv ∈ removeExpiredEntries 5 (⟨[("a", ⟨7, 0, 60000⟩)], 0, 0⟩ : CacheState Nat).cache,
          isExpired 5 kv.2 = false)
      ∧ ∃ kv ∈ removeExpiredEntries 5 (⟨[("a", ⟨7, 0, 60000⟩)], 0, 0⟩ : CacheState Nat).cache,
          (∀ kv' ∈ removeExpiredEntries 5 (⟨[("a", ⟨7, 0, 60000⟩)], 0, 0⟩ : CacheState Nat).cache,
              kv.2.timestamp ≤ kv'.2.timestamp)
          ∧ setCache 1 5 (⟨[("a", ⟨7, 0, 60000⟩)], 0, 0⟩ : CacheState Nat) "b" 9 50 =
              { (⟨[("a", ⟨7, 0, 60000⟩)], 0, 0⟩ : CacheState Nat) with
                  cache :=
                    (mapSet
                      (mapDelete
                        (removeExpiredEntries 5
                          (⟨[("a", ⟨7, 0, 60000⟩)], 0, 0⟩ : CacheState Nat).cache)
                        kv.1)
                      "b" ⟨9, 5, 50⟩) }) :=
  ⟨by decide, by decide, by decide,
    cache_lru_eviction_policy_c5 1 5 ⟨[("a", ⟨7, 0, 60000⟩)], 0, 0⟩ "b" 9 50
      (by decide) (by decide) (by decide)⟩

/-- Claim C6 (code bug): 101 `setCache` insertions of distinct keys in the
same millisecond leave 101 entries in the cache, exceeding
`MAX_CACHE_SIZE = 100` — `evictLRU` only deletes an entry whose timestamp is
strictly below `Date.now()`, so a cache filled within one millisecond grows
past capacity. -/
theorem cache_capacity_overflow_c6 :
    (fillSameTick 101 0).cache.length = 101
    ∧ MAX_CACHE_SIZE < (fillSameTick 101 0).cache.length := by
  decide

/-! ### Rate limiter (`src/services/rateLimiter.ts`) -/

/-- `RateLimitEntry`: the two per-client windows of request timestamps. -/
structure RateLimitEntry where
  requests : List Nat
  burstRequests : List Nat
deriving DecidableEq

/-- `RateLimitConfig`. -/
structure RateLimitConfig where
  windowMs : Nat
  maxRequests : Nat
  burstWindowMs : Nat
  maxBurstRequests : Nat
deriving DecidableEq

/-- `RATE_LIMIT_CONFIG`: 10 requests / 60 s, 5 requests / 10 s burst. -/
def RATE_LIMIT_CONFIG : RateLimitConfig :=
  { windowMs := 60 * 1000, maxRequests := 10,
    burstWindowMs := 10 * 1000, maxBurstRequests := 5 }

/-- `RateLimitInfo` from `src/types/index.ts`. -/
structure RateLimitInfo where
  limit : Nat
  remaining : Nat
  resetTime : Nat
deriving DecidableEq

/-- `cleanupExpiredRequests`: keep the timestamps with `now - timestamp <
windowMs` (for a JS timestamp in the future the difference is negative and
the timestamp is kept; `Nat` truncated subtraction gives `0 < windowMs`,
likewise kept whenever the window is nonempty). -/
def cleanupExpiredRequests (now : Nat) (requests : List Nat) (windowMs : Nat) :
    List Nat :=
  requests.filter (fun timestamp => now - timestamp < windowMs)

/-- The in-place pruning of both windows (`entry.requests = cleanup…;
entry.burstRequests = cleanup…`) that `isRateLimited`, `addRequest` and
`getRateLimitInfo` each begin with. -/
def pruneWindows (now : Nat) (entry : RateLimitEntry) (config : RateLimitConfig) :
    RateLimitEntry :=
  { requests := cleanupExpiredRequests now entry.requests config.windowMs,
    burstRequests :=
      cleanupExpiredRequests now entry.burstRequests config.burstWindowMs }

/-- `isRateLimited`: prune both windows (mutating the entry — returned here as
the first component), then deny if the burst window is at its bound, then if
the long window is at its bound. -/
def isRateLimited (now : Nat) (entry : RateLimitEntry)
    (config : RateLimitConfig) : RateLimitEntry × Bool :=
  if config.maxBurstRequests ≤ (pruneWindows now entry config).burstRequests.length then
    (pruneWindows now entry config, true)
  else if config.maxRequests ≤ (pruneWindows now entry config).requests.length then
    (pruneWindows now entry config, true)
  else
    (pruneWindows now entry config, false)

/-- `addRequest`: push `now` onto both windows, then prune both. -/
def addRequest (now : Nat) (entry : RateLimitEntry) (config : RateLimitConfig) :
    RateLimitEntry :=
  pruneWindows now
    { requests := entry.requests ++ [now],
      burstRequests := entry.burstRequests ++ [now] }
    config

/-- `Math.min(...entry.requests, ...entry.burstRequests, now)`. -/
def oldestRequest (now : Nat) (entry : RateLimitEntry) : Nat :=
  (entry.requests ++ entry.burstRequests).foldl min now

/-- `getRateLimitInfo`: prune both windows (again mutating the entry), then
report `limit`, `remaining = Math.max(0, maxRequests - requests.length)`
(`Nat` truncated subtraction) and
`resetTime = Math.ceil((oldestRequest + windowMs) / 1000)` — always the
long-window duration added to the globally oldest timestamp, in seconds. -/
def getRateLimitInfo (now : Nat) (entry : RateLimitEntry)
    (config : RateLimitConfig) : RateLimitEntry × RateLimitInfo :=
  (pruneWindows now entry config,
   { limit := config.maxRequests,
     remaining :=
       config.maxRequests - (pruneWindows now entry config).requests.length,
     resetTime :=
       (oldestRequest now (pruneWindows now entry config) + config.windowMs + 999)
         / 1000 })

/-- `checkRateLimit`: get-or-create the client's entry, run `isRateLimited`,
call `addRequest` only when the check passed, then compute the info (whose
pruning pass is the entry's final state in the store).  The client identifier
is passed directly (`getClientIdentifier` only derives it from headers). -/
def checkRateLimit (now : Nat) (rateLimitStore : List (String × RateLimitEntry))
    (clientId : String) :
    List (String × RateLimitEntry) × Bool × RateLimitInfo :=
  let entry := (mapGet rateLimitStore clientId).getD ⟨[], []⟩
  let checked := isRateLimited now entry RATE_LIMIT_CONFIG
  let entry2 := if checked.2 then checked.1
                else addRequest now checked.1 RATE_LIMIT_CONFIG
  let final := getRateLimitInfo now entry2 RATE_LIMIT_CONFIG
  (mapSet rateLimitStore clientId final.1, (!checked.2, final.2))

/-- A sequence of `checkRateLimit` calls for one client at the given times,
returning the final store and the `allowed` flag of every call in order. -/
def runChecks (times : List Nat) (store : List (String × RateLimitEntry))
    (clientId : String) : List (String × RateLimitEntry) × List Bool :=
  times.foldl
    (fun acc t =>
      ((checkRateLimit t acc.1 clientId).1,
       acc.2 ++ [(checkRateLimit t acc.1 clientId).2.1]))
    (store, [])

theorem mapGet_mapSet {κ α : Type} [DecidableEq κ] (m : List (κ × α))
    (key : κ) (v : α) : mapGet (mapSet m key v) key = some v := by
  induction m with
  | nil => simp [mapGet, mapSet]
  | cons kv rest ih =>
    by_cases h : kv.1 = key
    · simp [mapSet, mapGet, h]
    · simp [mapSet, mapGet, h, ih]

theorem cleanup_idem (now w : Nat) (l : List Nat) :
    cleanupExpiredRequests now (cleanupExpiredRequests now l w) w
      = cleanupExpiredRequests now l w := by
  simp [cleanupExpiredRequests, List.filter_filter]

theorem cleanup_append_singleton (now w : Nat) (l : List Nat) :
    cleanupExpiredRequests now (cleanupExpiredRequests now l w ++ [now]) w
      = cleanupExpiredRequests now (l ++ [now]) w := by
  simp [cleanupExpiredRequests, List.filter_append, List.filter_filter]

theorem prune_idem (now : Nat) (e : RateLimitEntry) (config : RateLimitConfig) :
    pruneWindows now (pruneWindows now e config) config
      = pruneWindows now e config := by
  simp [pruneWindows, cleanup_idem]

theorem isRateLimited_fst (now : Nat) (e : RateLimitEntry)
    (config : RateLimitConfig) :
    (isRateLimited now e config).1 = pruneWindows now e config := by
  unfold isRateLimited
  split_ifs <;> rfl

/-- Keeping a timestamp (`now - t < w`) is the same as the timestamp being
newer than `now - w` (that is, `now < t + w`), when the window is positive. -/
theorem cleanup_eq_newer (now w : Nat) (l : List Nat) (hw : 0 < w) :
    cleanupExpiredRequests now l w = l.filter (fun t => now < t + w) := by
  unfold cleanupExpiredRequests
  apply List.filter_congr
  intro t _
  simp only [decide_eq_decide]
  omega

/-- The stored entry after any `checkRateLimit` call: the prior windows
pruned, with `now` appended to both exactly when the call was allowed. -/
theorem checkRateLimit_stored (now : Nat)
    (store : List (String × RateLimitEntry)) (clientId : String) :
    mapGet (checkRateLimit now store clientId).1 clientId =
      some ⟨cleanupExpiredRequests now
              (((mapGet store clientId).getD ⟨[], []⟩).requests
                ++ (if (checkRateLimit now store clientId).2.1 then [now] else []))
              RATE_LIMIT_CONFIG.windowMs,
            cleanupExpiredRequests now
              (((mapGet store clientId).getD ⟨[], []⟩).burstRequests
                ++ (if (checkRateLimit now store clientId).2.1 then [now] else []))
              RATE_LIMIT_CONFIG.burstWindowMs⟩ := by
  have hallowed : (checkRateLimit now store clientId).2.1
      = !(isRateLimited now ((mapGet store clientId).getD ⟨[], []⟩)
            RATE_LIMIT_CONFIG).2 := rfl
  rw [hallowed]
  show mapGet (mapSet store clientId _) clientId = _
  rw [mapGet_mapSet]
  rw [isRateLimited_fst]
  cases hc : (isRateLimited now ((mapGet store clientId).getD ⟨[], []⟩)
      RATE_LIMIT_CONFIG).2 with
  | true =>
    simp only [Bool.not_true, reduceIte, List.append_nil]
    show some (pruneWindows now
        (pruneWindows now ((mapGet store clientId).getD ⟨[], []⟩)
          RATE_LIMIT_CONFIG) RATE_LIMIT_CONFIG) = _
    rw [prune_idem]
    simp [pruneWindows]
  | false =>
    simp only [Bool.not_false, reduceIte]
    have hadd : addRequest now
        (pruneWindows now ((mapGet store clientId).getD ⟨[], []⟩)
          RATE_LIMIT_CONFIG) RATE_LIMIT_CONFIG
        = pruneWindows now
            ⟨((mapGet store clientId).getD ⟨[], []⟩).requests ++ [now],
             ((mapGet store clientId).getD ⟨[], []⟩).burstRequests ++ [now]⟩
            RATE_LIMIT_CONFIG := by
      simp [addRequest, pruneWindows, cleanup_append_singleton]
    show some (pruneWindows now
        (addRequest now
          (pruneWindows now ((mapGet store clientId).getD ⟨[], []⟩)
            RATE_LIMIT_CONFIG) RATE_LIMIT_CONFIG) RATE_LIMIT_CONFIG) = _
    rw [hadd, prune_idem]
    simp [pruneWindows]

/-- `foldl min a l` is a lower bound of `a` and of every member, and is
either `a` itself or a member of `l`. -/
theorem foldlMin_spec (l : List Nat) : ∀ a : Nat,
    l.foldl min a ≤ a
    ∧ (∀ x ∈ l, l.foldl min a ≤ x)
    ∧ (l.foldl min a = a ∨ l.foldl min a ∈ l) := by
  induction l with
  | nil => intro a; simp
  | cons x xs ih =>
    intro a
    obtain ⟨h1, h2, h3⟩ := ih (min a x)
    simp only [List.foldl_cons]
    refine ⟨le_trans h1 (min_le_left _ _), ?_, ?_⟩
    · intro y hy
      rcases List.mem_cons.mp hy with h | h
      · subst h
        exact le_trans h1 (min_le_right _ _)
      · exact h2 y h
    · rcases h3 with h | h
      · rcases le_total a x with hax | hax
        · left
          rw [h, min_eq_left hax]
        · right
          rw [h, min_eq_right hax]
          exact List.mem_cons_self x xs
      · right
        exact List.mem_cons_of_mem _ h

/-- Claim C7: a request is denied iff the burst window already holds at least
`maxBurstRequests` timestamps newer than `now - burstWindowMs`, or the long
window holds at least `maxRequests` timestamps newer than `now - windowMs`
(either violation alone suffices); and with the source's config
(`{10, 60 s}` long, `{5, 10 s}` burst) a client issuing 5 requests within one
second is admitted 5 times, denied on the 6th attempt and again at 9999 ms,
and admitted once 10 s have elapsed since the 1st request. -/
theorem rate_limit_decision_rule_c7 :
    (∀ (config : RateLimitConfig) (now : Nat) (entry : RateLimitEntry),
      0 < config.windowMs → 0 < config.burstWindowMs →
      ((isRateLimited now entry config).2 = true ↔
        config.maxBurstRequests ≤
          (entry.burstRequests.filter (fun t => now < t + config.burstWindowMs)).length
        ∨ config.maxRequests ≤
          (entry.requests.filter (fun t => now < t + config.windowMs)).length))
    ∧ (runChecks [0, 200, 400, 600, 800, 1000, 9999, 10000] [] "c").2
        = [true, true, true, true, true, false, false, true] := by
  constructor
  · intro config now entry hw hb
    have h1 : (pruneWindows now entry config).requests
        = entry.requests.filter (fun t => now < t + config.windowMs) := by
      simp [pruneWindows, cleanup_eq_newer _ _ _ hw]
    have h2 : (pruneWindows now entry config).burstRequests
        = entry.burstRequests.filter (fun t => now < t + config.burstWindowMs) := by
      simp [pruneWindows, cleanup_eq_newer _ _ _ hb]
    unfold isRateLimited
    rw [h1, h2]
    split_ifs with hA hB
    · simpa using Or.inl hA
    · simpa using Or.inr hB
    · simp [hA, hB]
  · decide

/-- Witness for claim C7's decision rule at a concrete input: with the
source's config, an entry holding five timestamps `0` in each window is
denied at `now = 1000` because the burst window is at its bound. -/
theorem rate_limit_decision_rule_c7_witness :
    0 < RATE_LIMIT_CONFIG.windowMs
    ∧ 0 < RATE_LIMIT_CONFIG.burstWindowMs
    ∧ ((isRateLimited 1000 ⟨[0, 0, 0, 0, 0], [0, 0, 0, 0, 0]⟩
          RATE_LIMIT_CONFIG).2 = true ↔
        RATE_LIMIT_CONFIG.maxBurstRequests ≤
          (([0, 0, 0, 0, 0] : List Nat).filter
            (fun t => 1000 < t + RATE_LIMIT_CONFIG.burstWindowMs)).length
        ∨ RATE_LIMIT_CONFIG.maxRequests ≤
          (([0, 0, 0, 0, 0] : List Nat).filter
            (fun t => 1000 < t + RATE_LIMIT_CONFIG.windowMs)).length) :=
  ⟨by decide, by decide,
    rate_limit_decision_rule_c7.1 RATE_LIMIT_CONFIG 1000
      ⟨[0, 0, 0, 0, 0], [0, 0, 0, 0, 0]⟩ (by decide) (by decide)⟩

/-- Claim C8 (counterexample): five requests at time 0 are denied at
`now = 1000` solely because the burst window is at its bound (the long window
holds 5 < 10 timestamps), yet the reported `resetTime` is `60` — the epoch
second at which the oldest timestamp leaves the *long* window
(`0 + 60000 ms`), not the time `0 + 10000 ms` (epoch second `10`) at which the
oldest timestamp of the constraining burst window falls out of it. -/
theorem rate_limit_resetTime_counterexample_c8 :
    (isRateLimited 1000 ⟨[0, 0, 0, 0, 0], [0, 0, 0, 0, 0]⟩
        RATE_LIMIT_CONFIG).2 = true
    ∧ (cleanupExpiredRequests 1000 [0, 0, 0, 0, 0]
        RATE_LIMIT_CONFIG.windowMs).length < RATE_LIMIT_CONFIG.maxRequests
    ∧ RATE_LIMIT_CONFIG.maxBurstRequests ≤
        (cleanupExpiredRequests 1000 [0, 0, 0, 0, 0]
          RATE_LIMIT_CONFIG.burstWindowMs).length
    ∧ 0 + RATE_LIMIT_CONFIG.burstWindowMs = 10000
    ∧ (getRateLimitInfo 1000 ⟨[0, 0, 0, 0, 0], [0, 0, 0, 0, 0]⟩
        RATE_LIMIT_CONFIG).2.resetTime = 60
    ∧ (60 : Nat) ≠ 10000 ∧ (60 : Nat) ≠ 10 := by
  decide

/-- Claim C8 (amended): `resetTime` is computed from the *globally* oldest
surviving timestamp across both windows (or `now` when both are empty),
always adding the long-window duration `windowMs` regardless of which window
caused the denial, and is reported in epoch seconds rounded up
(`Math.ceil((oldest + windowMs) / 1000)`). -/
theorem rate_limit_resetTime_long_window_c8 (now : Nat)
    (entry : RateLimitEntry) (config : RateLimitConfig) :
    ∃ oldest : Nat,
      oldest ≤ now
      ∧ (∀ t ∈ cleanupExpiredRequests now entry.requests config.windowMs,
          oldest ≤ t)
      ∧ (∀ t ∈ cleanupExpiredRequests now entry.burstRequests config.burstWindowMs,
          oldest ≤ t)
      ∧ (oldest = now
          ∨ oldest ∈ cleanupExpiredRequests now entry.requests config.windowMs
          ∨ oldest ∈ cleanupExpiredRequests now entry.burstRequests config.burstWindowMs)
      ∧ (getRateLimitInfo now entry config).2.resetTime
          = (oldest + config.windowMs + 999) / 1000 := by
  obtain ⟨h1, h2, h3⟩ :=
    foldlMin_spec
      (cleanupExpiredRequests now entry.requests config.windowMs
        ++ cleanupExpiredRequests now entry.burstRequests config.burstWindowMs)
      now
  refine ⟨_, h1, ?_, ?_, ?_, rfl⟩
  · intro t ht
    exact h2 t (List.mem_append_left _ ht)
  · intro t ht
    exact h2 t (List.mem_append_right _ ht)
  · rcases h3 with h | h
    · exact Or.inl h
    · rcases List.mem_append.mp h with h | h
      · exact Or.inr (Or.inl h)
      · exact Or.inr (Or.inr h)

/-- Claim C9 (counterexample): `checkRateLimit` is not a pure check — a first
request from a fresh client is allowed and the call *records* it, appending
the current timestamp to both stored windows (the client's state changes from
absent/empty to one timestamp per window). -/
theorem rate_limit_check_mutation_counterexample_c9 :
    (checkRateLimit 0 [] "c").2.1 = true
    ∧ mapGet (checkRateLimit 0 [] "c").1 "c" = some ⟨[0], [0]⟩
    ∧ mapGet ([] : List (String × RateLimitEntry)) "c" = none := by
  decide

/-- Claim C9 (amended): `checkRateLimit` is check-then-record in one call: it
prunes expired timestamps from the client's stored windows and, exactly when
the request is allowed, appends the current timestamp to both windows; only a
denied check leaves the windows unchanged apart from pruning. -/
theorem rate_limit_check_records_on_allowed_c9 (now : Nat)
    (store : List (String × RateLimitEntry)) (clientId : String) :
    mapGet (checkRateLimit now store clientId).1 clientId =
      some ⟨cleanupExpiredRequests now
              (((mapGet store clientId).getD ⟨[], []⟩).requests
                ++ (if (checkRateLimit now store clientId).2.1 then [now] else []))
              RATE_LIMIT_CONFIG.windowMs,
            cleanupExpiredRequests now
              (((mapGet store clientId).getD ⟨[], []⟩).burstRequests
                ++ (if (checkRateLimit now store clientId).2.1 then [now] else []))
              RATE_LIMIT_CONFIG.burstWindowMs⟩ :=
  checkRateLimit_stored now store clientId

/-- Claim C10: a denied `checkRateLimit` call appends nothing — the client's
stored windows afterwards are exactly the previous windows with only their
expired timestamps pruned, hence sublists of the previous windows. -/
theorem rate_limit_denied_no_budget_c10 (now : Nat)
    (store : List (String × RateLimitEntry)) (clientId : String)
    (hdenied : (checkRateLimit now store clientId).2.1 = false) :
    mapGet (checkRateLimit now store clientId).1 clientId =
      some ⟨cleanupExpiredRequests now
              ((mapGet store clientId).getD ⟨[], []⟩).requests
              RATE_LIMIT_CONFIG.windowMs,
            cleanupExpiredRequests now
              ((mapGet store clientId).getD ⟨[], []⟩).burstRequests
              RATE_LIMIT_CONFIG.burstWindowMs⟩
    ∧ List.Sublist
        (cleanupExpiredRequests now
          ((mapGet store clientId).getD ⟨[], []⟩).requests
          RATE_LIMIT_CONFIG.windowMs)
        ((mapGet store clientId).getD ⟨[], []⟩).requests
    ∧ List.Sublist
        (cleanupExpiredRequests now
          ((mapGet store clientId).getD ⟨[], []⟩).burstRequests
          RATE_LIMIT_CONFIG.burstWindowMs)
        ((mapGet store clientId).getD ⟨[], []⟩).burstRequests := by
  refine ⟨?_, List.filter_sublist _, List.filter_sublist _⟩
  have h := checkRateLimit_stored now store clientId
  rw [hdenied] at h
  simpa using h

/-- Witness for claim C10 at a concrete input: a client with five timestamps
`0` in each window is denied at `now = 1000` and its stored windows are
unchanged (nothing expired, nothing appended). -/
theorem rate_limit_denied_no_budget_c10_witness :
    ((checkRateLimit 1000 [("c", ⟨[0, 0, 0, 0, 0], [0, 0, 0, 0, 0]⟩)] "c").2.1
        = false)
    ∧ (mapGet (checkRateLimit 1000
          [("c", ⟨[0, 0, 0, 0, 0], [0, 0, 0, 0, 0]⟩)] "c").1 "c" =
        some ⟨cleanupExpiredRequests 1000
                ((mapGet [("c", (⟨[0, 0, 0, 0, 0], [0, 0, 0, 0, 0]⟩ : RateLimitEntry))] "c").getD ⟨[], []⟩).requests
                RATE_LIMIT_CONFIG.windowMs,
              cleanupExpiredRequests 1000
                ((mapGet [("c", (⟨[0, 0, 0, 0, 0], [0, 0, 0, 0, 0]⟩ : RateLimitEntry))] "c").getD ⟨[], []⟩).burstRequests
                RATE_LIMIT_CONFIG.burstWindowMs⟩
      ∧ List.Sublist
          (cleanupExpiredRequests 1000
            ((mapGet [("c", (⟨[0, 0, 0, 0, 0], [0, 0, 0, 0, 0]⟩ : RateLimitEntry))] "c").getD ⟨[], []⟩).requests
            RATE_LIMIT_CONFIG.windowMs)
          ((mapGet [("c", (⟨[0, 0, 0, 0, 0], [0, 0, 0, 0, 0]⟩ : RateLimitEntry))] "c").getD ⟨[], []⟩).requests
      ∧ List.Sublist
          (cleanupExpiredRequests 1000
            ((mapGet [("c", (⟨[0, 0, 0, 0, 0], [0, 0, 0, 0, 0]⟩ : RateLimitEntry))] "c").getD ⟨[], []⟩).burstRequests
            RATE_LIMIT_CONFIG.burstWindowMs)
          ((mapGet [("c", (⟨[0, 0, 0, 0, 0], [0, 0, 0, 0, 0]⟩ : RateLimitEntry))] "c").getD ⟨[], []⟩).burstRequests) :=
  ⟨by decide,
    rate_limit_denied_no_budget_c10 1000
      [("c", ⟨[0, 0, 0, 0, 0], [0, 0, 0, 0, 0]⟩)] "c" (by decide)⟩

/-! ### Job queue (`src/services/queue.ts`) -/

/-- `QUEUE_CONFIG`'s shape: `maxConcurrency`, `retryAttempts`, `retryDelay`. -/
structure QueueConfig where
  maxConcurrency : Nat
  retryAttempts : Nat
  retryDelay : Nat
deriving DecidableEq

/-- `QUEUE_CONFIG`: 5 concurrent jobs, 3 retry attempts, 1000 ms delay. -/
def QUEUE_CONFIG : QueueConfig :=
  { maxConcurrency := 5, retryAttempts := 3, retryDelay := 1000 }

/-- `generateJobId` produces `job_${Date.now()}_${random}`, where the random
component is `Math.random().toString(36).substr(2, 9)` (base-36, never
containing `_`).  The id is modelled structurally by its two variable parts,
so `id.split("_")` is `["job", toString time, rand]`. -/
structure JobId where
  time : Nat
  rand : String
deriving DecidableEq

/-- `jobId.split("_")[2]`: the third underscore-separated component of
`job_${time}_${rand}` is the random part, not the user id. -/
def jobIdPart2 (id : JobId) : String := id.rand

/-- `QueueJob` from `src/types/index.ts`. -/
structure QueueJob where
  id : JobId
  userId : Nat
  timestamp : Nat
  retries : Nat
deriving DecidableEq

/-- One entry of `jobResults`: whether its `error` field is set, and the
completion timestamp (the stored payload plays no role in the claims). -/
structure JobResultEntry where
  error : Bool
  timestamp : Nat
deriving DecidableEq

/-- Errors surfaced by job execution: the processor's own error, or the
`Job … exceeded maximum retry attempts` error thrown by `retryJob`'s guard. -/
inductive QueueError (E : Type) where
  | processorError (e : E)
  | exceededRetries (id : JobId)
deriving DecidableEq

instance {E V : Type} [DecidableEq E] [DecidableEq V] :
    DecidableEq (Except E V) := fun a b =>
  match a, b with
  | Except.ok x, Except.ok y =>
    if h : x = y then isTrue (by rw [h])
    else isFalse (by intro hh; injection hh; contradiction)
  | Except.ok _, Except.error _ => isFalse (by intro hh; exact Except.noConfusion hh)
  | Except.error _, Except.ok _ => isFalse (by intro hh; exact Except.noConfusion hh)
  | Except.error x, Except.error y =>
    if h : x = y then isTrue (by rw [h])
    else isFalse (by intro hh; injection hh; contradiction)

/-- Outcome of `executeJob` / `retryJob` for one job: the settled result, the
total processor invocation count, the job with its mutated `retries` field,
and the backoff delays waited before retries, in order. -/
structure ExecOutcome (E V : Type) where
  result : Except (QueueError E) V
  calls : Nat
  job : QueueJob
  delays : List Nat

/-- `processJob`: invoke the processor once and settle with its outcome (the
`jobResults` write and the completed/failed counters are bookkeeping the
claims do not touch at this level).  The processor is modelled as a function
from the invocation index to that invocation's outcome; `calls` counts the
invocations made so far. -/
def processJob {E V : Type} (processor : Nat → Except E V) (calls : Nat)
    (_job : QueueJob) : Except E V × Nat :=
  (processor calls, calls + 1)

/-- `retryJob`: throw when `retries >= retryAttempts`; otherwise increment
`retries`, wait `retryDelay * retries` (`setTimeout`, recorded in `delays`),
then run `processJob` once.  A failure of that invocation propagates out of
`retryJob` — it does not loop or recurse. -/
def retryJob {E V : Type} (processor : Nat → Except E V) (calls : Nat)
    (job : QueueJob) : ExecOutcome E V :=
  if QUEUE_CONFIG.retryAttempts ≤ job.retries then
    { result := Except.error (QueueError.exceededRetries job.id),
      calls := calls, job := job, delays := [] }
  else
    match processJob processor calls { job with retries := job.retries + 1 } with
    | (Except.ok v, calls2) =>
      { result := Except.ok v, calls := calls2,
        job := { job with retries := job.retries + 1 },
        delays := [QUEUE_CONFIG.retryDelay * (job.retries + 1)] }
    | (Except.error e, calls2) =>
      { result := Except.error (QueueError.processorError e), calls := calls2,
        job := { job with retries := job.retries + 1 },
        delays := [QUEUE_CONFIG.retryDelay * (job.retries + 1)] }

/-- `executeJob`: one `processJob`; on failure, a single `retryJob` call when
`retries < retryAttempts` — whose own failure is not caught again. -/
def executeJob {E V : Type} (processor : Nat → Except E V) (calls : Nat)
    (job : QueueJob) : ExecOutcome E V :=
  match processJob processor calls job with
  | (Except.ok v, calls2) =>
    { result := Except.ok v, calls := calls2, job := job, delays := [] }
  | (Except.error e, calls2) =>
    if job.retries < QUEUE_CONFIG.retryAttempts then
      retryJob processor calls2 job
    else
      { result := Except.error (QueueError.processorError e), calls := calls2,
        job := job, delays := [] }

/-- Queue module state: `jobQueue`, `activeJobs` (ids), `jobResults`, plus
the model's count of processor invocations started and the `completedJobs`
counter. -/
structure QueueState where
  jobQueue : List QueueJob
  activeJobs : List JobId
  jobResults : List (JobId × JobResultEntry)
  processorCalls : Nat
  completedJobs : Nat
deriving DecidableEq

def emptyQueueState : QueueState := ⟨[], [], [], 0, 0⟩

/-- The `recentJobs` filter inside `processQueue`'s duplicate check: results
completed within the last 5000 ms. -/
def recentResults (now : Nat) (jobResults : List (JobId × JobResultEntry)) :
    List (JobId × JobResultEntry) :=
  jobResults.filter (fun r => now - r.2.timestamp < 5000)

/-- The inner condition of the duplicate check: some recent result's job id
has `split("_")[2]` equal to `job.userId.toString()`.  Since
`split("_")[2]` of `job_${time}_${rand}` is the random suffix, this compares
the random suffix against the user id. -/
def sameUserHasRecentResult (now : Nat)
    (jobResults : List (JobId × JobResultEntry)) (job : QueueJob) : Bool :=
  (recentResults now jobResults).any
    (fun r => jobIdPart2 r.1 == toString job.userId)

/-- `Array.from(jobResults.values()).find(...)`: the predicate ignores the
result it is applied to, so this is the first stored result when the
duplicate check fires, and `undefined` otherwise. -/
def findExistingResult (now : Nat)
    (jobResults : List (JobId × JobResultEntry)) (job : QueueJob) :
    Option JobResultEntry :=
  (jobResults.map (fun r => r.2)).find?
    (fun _result => sameUserHasRecentResult now jobResults job)

/-- Starting `executeJob(job, processor)` from the loop: the processor's
first invocation begins immediately and the job id enters `activeJobs`.  The
asynchronous completion (result storage, retry, `finally`-removal from
`activeJobs`) happens strictly after the synchronous loop and is outside
this model — the claims settled against it concern dispatch calls made while
no fetch has completed. -/
def startJob (s : QueueState) (job : QueueJob) : QueueState :=
  { s with processorCalls := s.processorCalls + 1,
           activeJobs := s.activeJobs ++ [job.id] }

/-- The `while` loop of `processQueue` (which contains no `await`, so it runs
synchronously to completion), recursing on the jobs still queued: shift jobs
while the queue is nonempty and fewer than `maxConcurrency` jobs are active;
when the duplicate check finds a recent non-error result, store it under the
new job's id and skip the fetch; otherwise start the job.  The shared
`jobQueue` (mutated by `shift()` in the source) is carried as the explicit
`queue` argument and written back on exit. -/
def processQueueGo (now : Nat) (queue : List QueueJob) (s : QueueState) :
    QueueState :=
  match queue with
  | [] => { s with jobQueue := [] }
  | job :: rest =>
    if s.activeJobs.length < QUEUE_CONFIG.maxConcurrency then
      match findExistingResult now s.jobResults job with
      | some existing =>
        if existing.error = false then
          processQueueGo now rest
            { s with jobResults := mapSet s.jobResults job.id existing,
                     completedJobs := s.completedJobs + 1 }
        else
          processQueueGo now rest (startJob s job)
      | none => processQueueGo now rest (startJob s job)
    else { s with jobQueue := job :: rest }

/-- `processQueue`: run the loop over the current `jobQueue`. -/
def processQueue (now : Nat) (s : QueueState) : QueueState :=
  processQueueGo now s.jobQueue s

/-- `addJob` (its synchronous part): create the job
(`id = job_${Date.now()}_${rand}`, `retries = 0`), push it onto `jobQueue`
and run `processQueue`.  The `pollForResult` loop that later delivers the
stored result to the caller is asynchronous and not modelled. -/
def addJob (now userId : Nat) (rand : String) (s : QueueState) : QueueState :=
  processQueue now
    { s with jobQueue := s.jobQueue ++ [⟨⟨now, rand⟩, userId, now, 0⟩] }

/-- A processor that fails on every invocation. -/
def alwaysFailingProcessor : Nat → Except Unit Nat :=
  fun _ => Except.error ()

/-- Claim C1 (code bug): two `addJob` calls for the same user arriving before
any fetch has completed start two processor invocations, not one — each call
flows straight to `executeJob` because `jobResults` only ever holds completed
results and the duplicate check consults nothing else.  Worse, even after a
success for user 1 is stored, a new call still starts a fresh invocation:
the check compares `jobId.split("_")[2]` — the *random* suffix of
`job_${Date.now()}_${random}` — with the user id, which never matches. -/
theorem queue_no_coalescing_c1 :
    (addJob 0 1 "bbb" (addJob 0 1 "aaa" emptyQueueState)).processorCalls = 2
    ∧ (2 : Nat) ≠ 1
    ∧ (addJob 0 1 "ccc"
        { emptyQueueState with
            jobResults := [(⟨0, "aaa"⟩, ⟨false, 0⟩)] }).processorCalls = 1
    ∧ jobIdPart2 ⟨0, "aaa"⟩ ≠ toString 1 := by
  decide

/-- Claim C2 (code bug): with a processor that fails on every invocation and
`retryAttempts = 3`, `executeJob` settles with the processor's error after
exactly 2 invocations (the initial attempt plus the single `retryJob`, whose
own failure propagates without further retries) — not the claimed 4. -/
theorem queue_retry_exhaustion_c2 :
    (executeJob alwaysFailingProcessor 0 ⟨⟨0, "aaa"⟩, 1, 0, 0⟩).result
        = Except.error (QueueError.processorError ())
    ∧ (executeJob alwaysFailingProcessor 0 ⟨⟨0, "aaa"⟩, 1, 0, 0⟩).calls = 2
    ∧ QUEUE_CONFIG.retryAttempts = 3
    ∧ (2 : Nat) ≠ 4 := by
  decide

/-- Claim C3 (code bug): the delay `retryJob` waits before the next
invocation is `retryDelay * retries` — linear, not exponential.  For attempt
count `a` (failures so far, starting at 0) the wait is `1000 * (a + 1)`;
this coincides with `baseDelay * 2^a` for `a = 0` and `a = 1` but differs at
`a = 2`: 3000 ms instead of `1000 * 2^2 = 4000` ms. -/
theorem queue_linear_backoff_c3 :
    (retryJob alwaysFailingProcessor 2 ⟨⟨0, "aaa"⟩, 1, 0, 2⟩).delays = [3000]
    ∧ QUEUE_CONFIG.retryDelay * 2 ^ 2 = 4000
    ∧ (3000 : Nat) ≠ 4000
    ∧ (retryJob alwaysFailingProcessor 0 ⟨⟨0, "aaa"⟩, 1, 0, 0⟩).delays = [1000]
    ∧ (retryJob alwaysFailingProcessor 1 ⟨⟨0, "aaa"⟩, 1, 0, 1⟩).delays = [2000] := by
  decide

end UserDataApi
